import Mathlib

/-!
Shallow embedding of the interactive squaring client in
`src/frontend/src/App.js` (the `App` React component), together with the
variant request handler shown in the embedded deployment
guide (the second `squareHandler` call site).

The component state is the string `number` (from `useState("")`) and the
text content of the `<h1 id="text_a">` display element.  An edit event
stores the raw input string; pressing the button runs `squareHandler`,
which issues one `axios.post` and, when the promise resolves, renders
`res.data` through `sample`.  The first call site attaches no `catch`
handler; the second call site (deployment guide, `/api/square`) attaches
a `catch` that renders `"Error: " ++ error.message`.
-/

/-- A JSON value as it appears in the request bodies of this client:
either a raw string (first call site sends the state string directly)
or a numeric value (second call site sends the coerced `numberInt`). -/
inductive Json where
  | str (s : String)
  | num (n : Int)
  deriving DecidableEq, Repr

/-- An outbound HTTP request as built by `axios.post(url, body, config)`:
the method is always POST, the body is the JSON object literal passed as
second argument (a list of field/value pairs), and `explicitHeaders` are
the headers given explicitly in the config argument (empty when no
config argument is passed, as at the first call site). -/
structure PostRequest where
  method : String
  url : String
  body : List (String × Json)
  explicitHeaders : List (String × String)
  deriving DecidableEq, Repr

/-- The request constructor, one value per `axios.post` call. -/
def axiosPost (url : String) (body : List (String × Json))
    (headers : List (String × String)) : PostRequest :=
  { method := "POST", url := url, body := body, explicitHeaders := headers }

/-- Modelled from the spec: the axios transport itself is not part of
`src/`.  Per the wire contract ("Request header:
`Content-Type: application/json`"), axios serializes a plain-object body
as JSON and sends `Content-Type: application/json` by default when the
call site passes no explicit headers; explicit headers are sent as
given. -/
def sentHeaders (r : PostRequest) : List (String × String) :=
  if r.explicitHeaders = [] then [("Content-Type", "application/json")]
  else r.explicitHeaders

/-- Outcome of one axios call as observed by the promise chain:
`resolved data` is a 2xx response whose body is `res.data`;
`rejected message` is a transport error or non-2xx response, carrying
`error.message`. -/
inductive AxiosOutcome where
  | resolved (data : String)
  | rejected (message : String)
  deriving DecidableEq, Repr

/-- The discriminated outcome of the data model of the spec (section 3):
`Success` carries the server-provided text, `Failure` a human-readable
message. -/
inductive SquareResult where
  | Success (text : String)
  | Failure (message : String)
  deriving DecidableEq, Repr

/-- Component state of `App`: `number` is the `useState` string, and
`display` is the text content of the `<h1 id="text_a">` element
(initially empty). -/
structure AppState where
  number : String
  display : String
  deriving DecidableEq, Repr

/-- Initial state: `useState("")` and an empty `<h1 id="text_a"></h1>`. -/
def initialState : AppState := { number := "", display := "" }

/-- The `onChange` handler of the input: `setNumber(event.target.value)` —
it stores the raw event string into `number` unconditionally. -/
def onChange (s : AppState) (rawText : String) : AppState :=
  { s with number := rawText }

/-- The renderer `sample(result)`: it assigns `result` to
`document.getElementById("text_a").innerHTML`, replacing whatever text
the display held before. -/
def sample (_oldDisplay result : String) : String :=
  result

/-- The request built at the first call site:
`axios.post("/square", { number: number })` — the raw state string as
the single `number` field, no explicit config. -/
def squareHandlerRequest (number : String) : PostRequest :=
  axiosPost "/square" [("number", Json.str number)] []

/-- The promise chain of the first call site: only
`.then((res) => sample(res.data))` is attached.  The value returned is
the string handed to `sample`, if any: on a resolved call the response
body, on a rejected call nothing (no `catch` handler exists). -/
def squareHandler (o : AxiosOutcome) : Option String :=
  match o with
  | .resolved data => some data
  | .rejected _ => none

/-- Whether the rejection escapes the promise chain of the first call site as
an unhandled promise rejection: the chain has a fulfillment handler but
no `catch`, so every rejected call escapes. -/
def squareHandlerUnhandled (o : AxiosOutcome) : Bool :=
  match o with
  | .resolved _ => false
  | .rejected _ => true

/-- The SquareResult (spec section 3) produced by the first call site,
when one is produced at all: the resolved body wrapped as `Success`; a
rejected call produces none. -/
def squareHandlerResult (o : AxiosOutcome) : Option SquareResult :=
  match o with
  | .resolved data => some (SquareResult.Success data)
  | .rejected _ => none

/-- The request built at the second call site (deployment guide):
`axios.post("/api/square", { number: numberInt }, { headers: ... })`.
Modelled from the spec for the value: `numberInt` is not defined in the
snippet; per the spec, this site "sends a coerced integer", so the field
carries a numeric value. -/
def squareHandler2Request (numberInt : Int) : PostRequest :=
  axiosPost "/api/square" [("number", Json.num numberInt)]
    [("Content-Type", "application/json")]

/-- The promise chain of the second call site:
`.then((res) => sample(res.data))` and
`.catch((error) => sample("Error: " + error.message))`.  The value
returned is the string handed to `sample`. -/
def squareHandler2 (o : AxiosOutcome) : Option String :=
  match o with
  | .resolved data => some data
  | .rejected message => some ("Error: " ++ message)

/-- At the second call site every rejection is consumed by the `catch`
handler, so no outcome escapes unhandled. -/
def squareHandler2Unhandled (_o : AxiosOutcome) : Bool :=
  false

/-- The SquareResult produced by the second call site: the resolved body
as `Success`, the caught error as a `Failure` whose message is the
rendered error text. -/
def squareHandler2Result (o : AxiosOutcome) : Option SquareResult :=
  match o with
  | .resolved data => some (SquareResult.Success data)
  | .rejected message => some (SquareResult.Failure ("Error: " ++ message))

/-- Number of times the renderer (`sample`) runs when one call at the
first call site settles with outcome `o`. -/
def renderCount (o : AxiosOutcome) : Nat :=
  match squareHandler o with
  | some _ => 1
  | none => 0

/-- Number of times the renderer runs when one call at the second call
site settles with outcome `o`. -/
def renderCount2 (o : AxiosOutcome) : Nat :=
  match squareHandler2 o with
  | some _ => 1
  | none => 0

/-- Pressing the button: `squareHandler` runs synchronously up to the
`axios.post`, which issues exactly one outbound request built from the
current `number`; the component state is untouched (rendering happens
only when the promise later settles). -/
def onTrigger (s : AppState) : AppState × List PostRequest :=
  (s, [squareHandlerRequest s.number])

/-- A pending call of the first call site settles with outcome `o`: the
promise chain runs, and if it hands a string to `sample`, the display is
overwritten with it; otherwise the state is unchanged. -/
def resolveTrigger (s : AppState) (o : AxiosOutcome) : AppState :=
  match squareHandler o with
  | some r => { s with display := sample s.display r }
  | none => s

/-- A pending call of the second call site settles with outcome `o`. -/
def resolveTrigger2 (s : AppState) (o : AxiosOutcome) : AppState :=
  match squareHandler2 o with
  | some r => { s with display := sample s.display r }
  | none => s

/-! ## Claim theorems -/

/-- C1, counterexample: at the first call site (the executable
`squareHandler` of `App`), a trigger whose call is rejected with message
"Network Error" produces no `Failure` SquareResult, hands nothing to the
renderer, and the rejection escapes the dispatcher boundary as an
unhandled promise rejection; the claim that every failing trigger is
converted to a `Failure` and never propagated is therefore false. -/
theorem claim_C1_counterexample :
    squareHandlerResult (AxiosOutcome.rejected "Network Error") = none ∧
    squareHandler (AxiosOutcome.rejected "Network Error") = none ∧
    squareHandlerUnhandled (AxiosOutcome.rejected "Network Error") = true ∧
    resolveTrigger initialState (AxiosOutcome.rejected "Network Error") = initialState :=
  ⟨rfl, rfl, rfl, rfl⟩

/-- C1, amended: only the second call site recovers failures: there,
every rejected call is converted into a `Failure` SquareResult whose
message is rendered, and no rejection escapes unhandled.  At the first
call site (the executable component), a rejected call produces no
SquareResult, renders nothing, and escapes as an unhandled promise
rejection. -/
theorem claim_C1 (msg : String) (s : AppState) :
    squareHandler2Result (AxiosOutcome.rejected msg) =
      some (SquareResult.Failure ("Error: " ++ msg)) ∧
    (resolveTrigger2 s (AxiosOutcome.rejected msg)).display = "Error: " ++ msg ∧
    squareHandler2Unhandled (AxiosOutcome.rejected msg) = false ∧
    squareHandlerResult (AxiosOutcome.rejected msg) = none ∧
    squareHandlerUnhandled (AxiosOutcome.rejected msg) = true :=
  ⟨rfl, rfl, rfl, rfl, rfl⟩

/-- C2: for every component state — hence for every InputValue string,
including the empty string and non-numeric text — a trigger issues
exactly one outbound request, to `/square`, whose body carries the raw
stored string unmodified as the single `number` field; no client-side
numeric check gates or alters the request. -/
theorem claim_C2 (s : AppState) :
    (onTrigger s).2 =
      [{ method := "POST", url := "/square",
         body := [("number", Json.str s.number)], explicitHeaders := [] }] :=
  rfl

/-- C3, counterexample: at the first call site, a trigger whose call is
rejected produces zero SquareResults and zero renderer invocations, not
exactly one; the claim fails for failing triggers at that call site. -/
theorem claim_C3_counterexample :
    renderCount (AxiosOutcome.rejected "Request failed with status code 500") = 0 ∧
    squareHandlerResult (AxiosOutcome.rejected "Request failed with status code 500") =
      none :=
  ⟨rfl, rfl⟩

/-- C3, amended: at the first call site a resolved trigger produces
exactly one SquareResult and one render, but a rejected trigger produces
none and renders zero times; only the second call site renders exactly
once for every outcome. -/
theorem claim_C3 (data msg : String) (o : AxiosOutcome) :
    renderCount (AxiosOutcome.resolved data) = 1 ∧
    squareHandlerResult (AxiosOutcome.resolved data) =
      some (SquareResult.Success data) ∧
    renderCount (AxiosOutcome.rejected msg) = 0 ∧
    renderCount2 o = 1 := by
  refine ⟨rfl, rfl, rfl, ?_⟩
  cases o <;> rfl

/-- C4: every resolved response body is wrapped as `Success` and
displayed verbatim, for any prior state; in the concrete scenario the
trigger on InputValue "5" posts the raw string "5", and when the stub
resolves with "25" the rendered text is exactly "25". -/
theorem claim_C4 (s : AppState) (data : String) :
    (resolveTrigger s (AxiosOutcome.resolved data)).display = data ∧
    squareHandlerResult (AxiosOutcome.resolved data) =
      some (SquareResult.Success data) ∧
    (onTrigger (onChange initialState "5")).2 =
      [squareHandlerRequest "5"] ∧
    (squareHandlerRequest "5").body = [("number", Json.str "5")] ∧
    (resolveTrigger (onChange initialState "5")
      (AxiosOutcome.resolved "25")).display = "25" :=
  ⟨rfl, rfl, rfl, rfl, rfl⟩

/-- C5: for every string handed to the edit handler, the stored
InputValue afterwards is exactly that string — no trimming, no
normalization, no parsing, and the replacement is unconditional (empty
and non-numeric strings included). -/
theorem claim_C5 (s : AppState) (rawText : String) :
    (onChange s rawText).number = rawText :=
  rfl

/-- C6: for every rejected call at the error-handling call site, the
produced `Failure` message is non-empty and the rendered text begins
with the marker "Error:", for any prior display state. -/
theorem claim_C6 (s : AppState) (msg : String) :
    squareHandler2Result (AxiosOutcome.rejected msg) =
      some (SquareResult.Failure ("Error: " ++ msg)) ∧
    (resolveTrigger2 s (AxiosOutcome.rejected msg)).display = "Error: " ++ msg ∧
    0 < ("Error: " ++ msg).length ∧
    (∃ rest, "Error: " ++ msg = "Error:" ++ rest) := by
  refine ⟨rfl, rfl, ?_, ?_⟩
  · rw [String.length_append]
    have h7 : "Error: ".length = 7 := rfl
    omega
  · have h : "Error:" ++ " " = "Error: " := rfl
    exact ⟨" " ++ msg, by rw [← String.append_assoc, h]⟩

/-- C7: every trigger issues exactly one outbound POST to the squaring
endpoint, whose body is a JSON object with exactly one field carrying
the number to square, and which goes out with the header
`Content-Type: application/json` — explicitly at the second call site,
via the default JSON serialization at the first. -/
theorem claim_C7 (s : AppState) (numberInt : Int) :
    (onTrigger s).2.length = 1 ∧
    (squareHandlerRequest s.number).method = "POST" ∧
    (squareHandlerRequest s.number).url = "/square" ∧
    (squareHandlerRequest s.number).body = [("number", Json.str s.number)] ∧
    sentHeaders (squareHandlerRequest s.number) =
      [("Content-Type", "application/json")] ∧
    (squareHandler2Request numberInt).method = "POST" ∧
    (squareHandler2Request numberInt).url = "/api/square" ∧
    (squareHandler2Request numberInt).body.length = 1 ∧
    sentHeaders (squareHandler2Request numberInt) =
      [("Content-Type", "application/json")] := by
  refine ⟨rfl, rfl, rfl, rfl, ?_, rfl, rfl, rfl, ?_⟩ <;>
    simp [sentHeaders, squareHandlerRequest, squareHandler2Request, axiosPost]

/-- C8: a trigger never mutates the InputValue: the state returned at
dispatch time and the state after the call settles (resolved or
rejected, at either call site) carry the same `number`; only the edit
handler replaces `number`, and it leaves the display alone. -/
theorem claim_C8 (s : AppState) (o : AxiosOutcome) (rawText : String) :
    (onTrigger s).1.number = s.number ∧
    (resolveTrigger s o).number = s.number ∧
    (resolveTrigger2 s o).number = s.number ∧
    (onChange s rawText).number = rawText ∧
    (onChange s rawText).display = s.display := by
  refine ⟨rfl, ?_, ?_, rfl, rfl⟩ <;> cases o <;> rfl

/-- C9: two overlapping triggers proceed as independent calls — each
issues its own request built from the InputValue at its own trigger
time, with no cancellation — and when the first-issued call resolves
after the second-issued one, the final display is the result of the call
that resolved last (the first-issued call). -/
theorem claim_C9 (s : AppState) (n1 n2 d1 d2 : String) :
    (onTrigger (onChange s n1)).2 = [squareHandlerRequest n1] ∧
    (onTrigger (onChange (onChange s n1) n2)).2 = [squareHandlerRequest n2] ∧
    (resolveTrigger (resolveTrigger (onChange (onChange s n1) n2)
        (AxiosOutcome.resolved d2)) (AxiosOutcome.resolved d1)).display = d1 :=
  ⟨rfl, rfl, rfl⟩

/-- C10: the renderer overwrites, never appends: one render replaces the
old display regardless of its content, and after any sequence of renders
ending in `r` the display slot holds exactly `r`. -/
theorem claim_C10 (old r : String) (rs : List String) :
    sample old r = r ∧ (rs ++ [r]).foldl sample old = r := by
  refine ⟨rfl, ?_⟩
  simp [sample]
